import Mathlib

/-
Shallow embedding of the geometric correction core of the
sczn3-sec-backend-pipe repository (a JS express backend computing
windage/elevation scope-click corrections from bullet-hole coordinates).

The repository contains several near-duplicate server variants.  Each is
embedded in its own namespace, named after the variant build tag:

* `BullLockedV2`     — src/server.js lines 1-445   (build BULL_LOCKED_V2)
* `AlwaysImagePoib`  — src/server.js lines 446-834 (build REAL_ALWAYS_IMAGE_POIB_v1)
* `YDownV2`          — src/server.js lines 835-1109 (build POIB_TO_BULL_LOCKED_YDOWN_V2)
* `Part000`          — src/unnamed/part_000 (build POIB_TO_BULL_YDOWN_LOCKED_V3)
* `Part009`          — src/unnamed/part_009 (build REAL_v1_2025-12-26)
* `Part011`          — src/unnamed/part_011 (build POIB_ANCHOR_V2)
* `Part013`          — src/unnamed/part_013 (build POIB_ANCHOR_CLEAN_V1)

Modelling conventions.  JS numbers are modelled as exact rationals (ℚ);
IEEE-754 rounding is ignored, but the exact constants the code uses
(including Number.EPSILON = 2^-52 where the code adds it) are kept.
A JS value that may be NaN / null / undefined / non-numeric at a given
point is modelled as `Option ℚ` (`none` = not a finite number).
`Math.round(x) = ⌊x + 1/2⌋` for finite x (JS rounds half toward +∞).
Strings that the code iterates over are modelled as `List Char`; output
labels, which are only constructed and compared, stay Lean `String`s.
-/

namespace Js

/-- JS `Math.round(n * 100) / 100`, the two-decimal rounding shared by the
variants (server.js line 34, 615, 1161; part_009 line 48; part_011 line 40;
part_013 line 20).  The `Number.isFinite` guard some variants have is
vacuous over ℚ. -/
def round2 (n : ℚ) : ℚ := ((⌊n * 100 + 1 / 2⌋ : ℤ) : ℚ) / 100

/-- JS `Number.EPSILON` = 2^-52 as an exact rational. -/
def epsilon : ℚ := 1 / 4503599627370496

/-- JS `Math.round((Number(n) + Number.EPSILON) * 100) / 100` — the round2 of
the YDOWN variants (server.js line 860, part_000 line 11). -/
def round2eps (n : ℚ) : ℚ := round2 (n + epsilon)

end Js

namespace JsArr

/-- Insert one element into a list that is already sorted by `key`,
placing it before the first element whose key is not smaller.  Together
with `sortByKey` this reproduces a stable ascending sort, which is what
JS `Array.prototype.sort((a, b) => key(a) - key(b))` performs (JS sort is
stable per ES2019). -/
def insertByKey (key : α → ℚ) (x : α) : List α → List α
  | [] => [x]
  | y :: ys => if key y < key x then y :: insertByKey key x ys else x :: y :: ys

/-- Stable ascending insertion sort by a rational key; model of the stable
JS `Array.prototype.sort` with a numeric comparator. -/
def sortByKey (key : α → ℚ) : List α → List α
  | [] => []
  | x :: xs => insertByKey key x (sortByKey key xs)

end JsArr

namespace BullLockedV2

/-- round2 of server.js line 34 (finite guard dropped: ℚ is always finite). -/
def round2 (n : ℚ) : ℚ := Js.round2 n

/-- server.js lines 44-48: `inchesPerMoaAtYards` returns NaN (modelled as
`none`) for non-finite or non-positive yards, else `1.047 * (y / 100)`. -/
def inchesPerMoaAtYards (yards : ℚ) : Option ℚ :=
  if yards ≤ 0 then none else some (1047 / 1000 * (yards / 100))

/-- JS `String.prototype.trim`: drop whitespace from both ends. -/
def jsTrim (l : List Char) : List Char :=
  ((l.dropWhile Char.isWhitespace).reverse.dropWhile Char.isWhitespace).reverse

/-- JS `String.prototype.split` with a single-character separator:
`"x".split("x") = ["", ""]`, `"axb".split("x") = ["a", "b"]`. -/
def splitOnChar (c : Char) : List Char → List (List Char)
  | [] => [[]]
  | a :: rest =>
    let r := splitOnChar c rest
    if a = c then [] :: r
    else
      match r with
      | h :: t => (a :: h) :: t
      | [] => [[a]]

/-- server.js line 61: `String(specRaw ?? "").trim().toLowerCase()`. -/
def trimmedSpec (specRaw : List Char) : List Char := jsTrim (specRaw.map Char.toLower)

/-- server.js line 67: `s.replace(/\s+/g, "")` applied to the trimmed,
lowercased spec. -/
def cleanedSpec (specRaw : List Char) : List Char :=
  (trimmedSpec specRaw).filter (fun c => !c.isWhitespace)

/-- server.js lines 59-91 `parseTargetSpec`.  The JS string is modelled as
`List Char`; `num` abstracts the JS `Number(string)` coercion on the
already-cleaned text (`none` = NaN; note JS `Number("") = 0`, so `num`
of an empty list may well be `some 0`).  Result `none` = `{ ok: false }`,
`some (w, h)` = `{ ok: true, widthIn: w, heightIn: h }`. -/
def parseTargetSpec (num : List Char → Option ℚ) (specRaw : List Char) : Option (ℚ × ℚ) :=
  if (trimmedSpec specRaw).isEmpty then none
  else if (cleanedSpec specRaw).contains 'x' then
    match (splitOnChar 'x' (cleanedSpec specRaw)).map num with
    | [some w, some h] => if w ≤ 0 ∨ h ≤ 0 then none else some (w, h)
    | _ => none
  else
    match num (cleanedSpec specRaw) with
    | none => none
    | some n =>
      if n ≤ 0 then none
      else if n = 11 then some (17 / 2, 11)
      else some (n, n)

/-- Detected hole blob centroid in pixels (server.js lines 196-202). -/
structure Hole where
  cx : ℚ
  cy : ℚ
deriving DecidableEq

/-- Output of `computeBullLocked` (server.js lines 269-278), keeping the
signed clicks, the dial direction words and the rounded POIB inches. -/
structure BullLockedOut where
  wSigned : ℚ
  eSigned : ℚ
  windDir : String
  elevDir : String
  poibX : ℚ
  poibY : ℚ
deriving DecidableEq

/-- server.js lines 226-279 `computeBullLocked`: pixel → inch mapping with
origin top-left and y growing down, bull fixed at the target center,
correction `bull - group`, elevation sign flipped to the Up-positive output
convention.  JS `inchesPerClick ? _ : 0` treats both NaN (`none`) and `0`
as falsy, which is exactly the `match`/`if` below. -/
def computeBullLocked (holes : List Hole) (wPx hPx widthIn heightIn distanceYards clickValueMoa : ℚ) :
    BullLockedOut :=
  let bull : ℚ × ℚ := (widthIn / 2, heightIn / 2)
  let groupCenterPx : ℚ × ℚ :=
    ((holes.map Hole.cx).sum / holes.length, (holes.map Hole.cy).sum / holes.length)
  let groupCenterIn : ℚ × ℚ :=
    (groupCenterPx.1 / wPx * widthIn, groupCenterPx.2 / hPx * heightIn)
  let dxIn := bull.1 - groupCenterIn.1
  let dyIn := bull.2 - groupCenterIn.2
  let poibX := groupCenterIn.1 - bull.1
  let poibY := bull.2 - groupCenterIn.2
  let inchesPerClick := (inchesPerMoaAtYards distanceYards).map (· * clickValueMoa)
  let wSigned :=
    match inchesPerClick with
    | none => 0
    | some v => if v = 0 then 0 else round2 (dxIn / v)
  let eSigned :=
    match inchesPerClick with
    | none => 0
    | some v => if v = 0 then 0 else round2 ((-dyIn) / v)
  let windDir := if 0 < wSigned then ("RIGHT") else if wSigned < 0 then ("LEFT") else ("CENTER")
  let elevDir := if 0 < eSigned then ("UP") else if eSigned < 0 then ("DOWN") else ("CENTER")
  ⟨wSigned, eSigned, windDir, elevDir, round2 poibX, round2 poibY⟩

/-- HTTP response of the POST /api/sec handler, reduced to what the claims
need: an error code (`jsonFail` with `ok:false`) or a 200 `ok:true` body. -/
inductive Resp where
  | failure (code : String)
  | success (out : BullLockedOut)
deriving DecidableEq

/-- server.js lines 349-380: after detection, zero holes yields the 422
`HOLES_NOT_FOUND` failure, otherwise a 200 success around
`computeBullLocked`. -/
def postApiSec (holes : List Hole) (wPx hPx widthIn heightIn distanceYards clickValueMoa : ℚ) :
    Resp :=
  if holes.length = 0 then .failure ("HOLES_NOT_FOUND")
  else .success (computeBullLocked holes wPx hPx widthIn heightIn distanceYards clickValueMoa)

end BullLockedV2

namespace AlwaysImagePoib

/-- round2 of server.js line 615 (no finite guard). -/
def round2 (n : ℚ) : ℚ := Js.round2 n

/-- server.js lines 621-625 `dialText`.  The zero branch is the exact JS
literal; for the signed branches only the direction word is kept (the JS
string also carries the absolute amount, irrelevant to the claims). -/
def dialText (clicksSigned : ℚ) (negWord posWord : String) : String :=
  if clicksSigned = 0 then ("CENTER (0.00 clicks)")
  else if clicksSigned < 0 then negWord
  else posWord

/-- Hole blob of `detectTargetAndGroup` (server.js lines 771-775):
centroid plus pixel count `px`. -/
structure HoleBlob where
  x : ℚ
  y : ℚ
  px : ℚ
deriving DecidableEq

/-- server.js lines 780-796: the group center.  With zero holes the code
falls back to the detected target center; otherwise it averages the (up to)
25 smallest blobs after a stable ascending sort by `px`. -/
def groupCenterPxOf (holes : List HoleBlob) (xCenter yCenter : ℚ) : ℚ × ℚ :=
  if holes.length = 0 then (xCenter, yCenter)
  else
    let pick := (JsArr.sortByKey HoleBlob.px holes).take 25
    ((pick.map HoleBlob.x).sum / pick.length, (pick.map HoleBlob.y).sum / pick.length)

/-- The 200 response body of the handler (server.js lines 542-595),
reduced to the fields the claims reference.  `ok` is always `true`: this
variant has no failure path once the image decodes. -/
structure SecResponse where
  ok : Bool
  poibX : ℚ
  poibY : ℚ
  windage : ℚ
  elevation : ℚ
  windDial : String
  elevDial : String
deriving DecidableEq

/-- server.js lines 519-595: POIB from the (possibly fallen-back) group
center, correction clicks `-poib / inchesPerClick`, dial labels. -/
def postApiSec (holes : List HoleBlob) (xCenter yCenter pixelsPerInch distanceYards clickValueMoa : ℚ) :
    SecResponse :=
  let g := groupCenterPxOf holes xCenter yCenter
  let poibX := (g.1 - xCenter) / pixelsPerInch
  let poibY := (yCenter - g.2) / pixelsPerInch
  let inchesPerClick := 1047 / 1000 * (distanceYards / 100) * clickValueMoa
  let windageClicksSigned := round2 ((-poibX) / inchesPerClick)
  let elevationClicksSigned := round2 ((-poibY) / inchesPerClick)
  { ok := true
    poibX := round2 poibX
    poibY := round2 poibY
    windage := windageClicksSigned
    elevation := elevationClicksSigned
    windDial := dialText windageClicksSigned ("LEFT") ("RIGHT")
    elevDial := dialText elevationClicksSigned ("DOWN") ("UP") }

end AlwaysImagePoib

namespace YDownV2

/-- round2 of server.js line 860: adds `Number.EPSILON` before rounding. -/
def round2 (n : ℚ) : ℚ := Js.round2eps n

/-- server.js lines 949-961 `computePOIB`: averages the holes whose `x`
and `y` both parse to finite numbers, silently skipping the others
(`parseNumber(_, null)` then `continue`); `{ ok: false }` (here `none`)
only when no hole survives.  Returns `(n, x, y)` = count and centroid. -/
def computePOIB (holes : List (Option ℚ × Option ℚ)) : Option (ℕ × ℚ × ℚ) :=
  let valid := holes.filterMap fun h =>
    match h with
    | (some x, some y) => some (x, y)
    | _ => none
  if valid.length = 0 then none
  else
    some (valid.length,
      (valid.map Prod.fst).sum / valid.length,
      (valid.map Prod.snd).sum / valid.length)

/-- server.js lines 989-992: true MOA, 1.047 inches per MOA at 100 yards. -/
def inchesPerMOA (distanceYards : ℚ) : ℚ := 1047 / 1000 * (distanceYards / 100)

/-- server.js lines 994-998 `clicksFromInches`: absolute click magnitude,
0 whenever inches-per-click is not finite-positive. -/
def clicksFromInches (deltaIn distanceYards clickValueMoa : ℚ) : ℚ :=
  let inPerClick := inchesPerMOA distanceYards * clickValueMoa
  if inPerClick ≤ 0 then 0 else |deltaIn| / inPerClick

/-- server.js lines 1000-1006 `labelsFromSignedYDown`: direction words from
the sign of the signed clicks, with `0` falling into the `RIGHT` / `DOWN`
branches (the comparisons are `>= 0`). -/
def labelsFromSignedYDown (wSigned eSigned : ℚ) : String × String :=
  ((if 0 ≤ wSigned then ("RIGHT") else ("LEFT")),
   (if 0 ≤ eSigned then ("DOWN") else ("UP")))

/-- Signed clicks and labels of the POIB_TO_BULL_LOCKED_YDOWN_V2 handler. -/
structure SecOut where
  wSigned : ℚ
  eSigned : ℚ
  wDir : String
  eDir : String
deriving DecidableEq

/-- server.js lines 1048-1060: LOCKED RULE `correction = bull - POIB` in
Y-down inch space; click magnitudes rounded to two decimals, then signed
by the sign of the correction; labels from `labelsFromSignedYDown`. -/
def secClicks (bull poib : ℚ × ℚ) (distanceYards clickValueMoa : ℚ) : SecOut :=
  let dxIn := bull.1 - poib.1
  let dyIn := bull.2 - poib.2
  let wClicks := round2 (clicksFromInches dxIn distanceYards clickValueMoa)
  let eClicks := round2 (clicksFromInches dyIn distanceYards clickValueMoa)
  let wSigned := if 0 ≤ dxIn then wClicks else -wClicks
  let eSigned := if 0 ≤ dyIn then eClicks else -eClicks
  let labels := labelsFromSignedYDown wSigned eSigned
  ⟨wSigned, eSigned, labels.1, labels.2⟩

/-- Reduced POST /api/sec response of this variant. -/
inductive Resp where
  | failure (code : String)
  | success (out : SecOut) (poibX poibY : ℚ) (holesUsedCount : ℕ)
deriving DecidableEq

/-- server.js lines 1015-1095: `NO_HOLES` on an empty list, `NO_BULL` when
a bull coordinate is null/undefined (modelled `none`), `BAD_HOLES` when
`computePOIB` finds no valid hole, otherwise a 200 success. -/
def handler (holes : List (Option ℚ × Option ℚ)) (bull : Option ℚ × Option ℚ)
    (distanceYards clickValueMoa : ℚ) : Resp :=
  if holes.length = 0 then .failure ("NO_HOLES")
  else
    match bull with
    | (some bx, some b2) =>
      match computePOIB holes with
      | none => .failure ("BAD_HOLES")
      | some (n, px, py) =>
        .success (secClicks (bx, b2) (px, py) distanceYards clickValueMoa) px py n
    | _ => .failure ("NO_BULL")

end YDownV2

namespace Part000

/-- round2 of part_000 line 11 (adds `Number.EPSILON`). -/
def round2 (n : ℚ) : ℚ := Js.round2eps n

/-- part_000 lines 15-18 `inchesPerMOA`: true MOA, 1.047 inches at 100
yards, no guard against non-positive distance. -/
def inchesPerMOA (distanceYards : ℚ) : ℚ := 1047 / 1000 * (distanceYards / 100)

/-- part_000 lines 20-28 `poibOf`: plain centroid of the holes. -/
def poibOf (holes : List (ℚ × ℚ)) : ℚ × ℚ :=
  ((holes.map Prod.fst).sum / holes.length, (holes.map Prod.snd).sum / holes.length)

/-- part_000 lines 39-43 `labelSigned`: positive → `posLabel`, negative →
`negLabel`, zero → `"HOLD"`. -/
def labelSigned (value : ℚ) (posLabel negLabel : String) : String :=
  if 0 < value then posLabel else if value < 0 then negLabel else ("HOLD")

/-- part_000 lines 113-114: the deadband zeroes an axis whenever
`Math.abs(delta) <= deadbandIn` (note the non-strict comparison). -/
def deadbandAxis (delta deadbandIn : ℚ) : ℚ := if |delta| ≤ deadbandIn then 0 else delta

/-- Reduced POST /api/sec response of part_000.  The success carries the
(absolute) click outputs and the direction words of `scopeClicks`. -/
inductive Resp where
  | failure (code : String)
  | success (windClicksAbs elevClicksAbs : ℚ) (windDir elevDir : String)
deriving DecidableEq

/-- part_000 lines 55-156: `NO_HOLES` on an empty list, `BAD_HOLES` as soon
as any hole has a non-numeric or non-finite coordinate (modelled `none`),
`BAD_BULL` for a bad bull, else correction `bull - poib` (Y-down), deadband
with `<=`, clicks through true MOA, labels from the deadbanded inches. -/
def postApiSec (holes : List (Option ℚ × Option ℚ)) (bull : Option ℚ × Option ℚ)
    (distanceYards clickValueMoa deadbandIn : ℚ) : Resp :=
  if holes.length = 0 then .failure ("NO_HOLES")
  else if holes.any (fun h => h.1.isNone || h.2.isNone) then .failure ("BAD_HOLES")
  else
    match bull with
    | (some bx, some b2) =>
      let hs := holes.filterMap fun h =>
        match h with
        | (some x, some y) => some (x, y)
        | _ => none
      let poib := poibOf hs
      let dxIn := bx - poib.1
      let dyIn := b2 - poib.2
      let ips := inchesPerMOA distanceYards
      let dxDb := deadbandAxis dxIn deadbandIn
      let dyDb := deadbandAxis dyIn deadbandIn
      let clicksW := dxDb / ips / clickValueMoa
      let clicksE := dyDb / ips / clickValueMoa
      .success (round2 |clicksW|) (round2 |clicksE|)
        (labelSigned dxDb ("RIGHT") ("LEFT")) (labelSigned dyDb ("DOWN") ("UP"))
    | _ => .failure ("BAD_BULL")

end Part000

namespace Part009

/-- round2 of part_009 lines 48-50 (plain). -/
def round2 (n : ℚ) : ℚ := Js.round2 n

/-- part_009 lines 44-46 `inchesPerClick`. -/
def inchesPerClick (distanceYards clickValueMoa : ℚ) : ℚ :=
  1047 / 1000 * (distanceYards / 100) * clickValueMoa

/-- Squared Euclidean distance between two centroids.  The source compares
`Math.hypot` distances (part_009 lines 293-297); since `Real.sqrt` is
strictly monotone on nonnegatives, every comparison of distances (the
`sort` by `d` and the `rMax <` test) is equivalent to the same comparison
of squared distances, which is what this embedding uses. -/
def distSq (p q : ℚ × ℚ) : ℚ := (p.1 - q.1) ^ 2 + (p.2 - q.2) ^ 2

/-- part_009 lines 303-311: indices of the `k` nearest points to point `i`
(the point itself included at distance 0), by a stable ascending sort on
distance — ties keep the original index order, as JS sort does. -/
def kNearestIdxs (pts : List (ℚ × ℚ)) (i k : ℕ) : List ℕ :=
  let p0 := pts.getD i (0, 0)
  let ds := (List.range pts.length).map fun j => (j, distSq p0 (pts.getD j (0, 0)))
  ((JsArr.sortByKey Prod.snd ds).take k).map Prod.fst

/-- part_009 lines 314-320: centroid of the selected indices. -/
def centroidIdxs (pts : List (ℚ × ℚ)) (sel : List ℕ) : ℚ × ℚ :=
  ((sel.map fun j => (pts.getD j (0, 0)).1).sum / sel.length,
   (sel.map fun j => (pts.getD j (0, 0)).2).sum / sel.length)

/-- part_009 lines 322-326: maximum (squared) radius of the selected
cluster around its own centroid, starting from 0. -/
def rMaxSq (pts : List (ℚ × ℚ)) (sel : List ℕ) : ℚ :=
  let c := centroidIdxs pts sel
  (sel.map fun j => distSq (pts.getD j (0, 0)) c).foldl max 0

/-- part_009 lines 286-335 `chooseTightCluster`: everything is selected
only when there are at most 3 blobs; otherwise, for k = 3..min(7, n) and
every candidate center i (k outer loop, i inner, both ascending), the
k-nearest cluster with minimal max radius wins, a later candidate
replacing the incumbent only when strictly better (so ties keep the
earliest, i.e. smallest-k, candidate).  minShots = 3 and maxShots = 7 are
hard-coded in the source; there are no parameters for them. -/
def chooseTightCluster (pts : List (ℚ × ℚ)) : List ℕ :=
  if pts.length ≤ 3 then List.range pts.length
  else
    let n := pts.length
    let maxK := min 7 n
    let candidates := ((List.range (maxK - 2)).map (· + 3)).flatMap
      fun k => (List.range n).map fun i => (k, i)
    let best := candidates.foldl
      (fun best ki =>
        let sel := kNearestIdxs pts ki.2 ki.1
        let r := rMaxSq pts sel
        match best with
        | none => some (sel, r)
        | some b => if r < b.2 then some (sel, r) else some b)
      none
    match best with
    | none => []
    | some b => b.1

/-- part_009 lines 343-369 `computePoibFromBlobs`: `none` (ok: false) when
nothing is selected, otherwise POIB inches relative to the crosshair
center with the Y axis inverted to Up-positive. -/
def computePoibFromBlobs (blobs : List (ℚ × ℚ)) (selectedIdxs : List ℕ) (xC yC ppi : ℚ) :
    Option (ℚ × ℚ) :=
  if selectedIdxs.length = 0 then none
  else
    let cx := (selectedIdxs.map fun i => (blobs.getD i (0, 0)).1).sum / selectedIdxs.length
    let cy := (selectedIdxs.map fun i => (blobs.getD i (0, 0)).2).sum / selectedIdxs.length
    some (round2 ((cx - xC) / ppi), round2 (-((cy - yC) / ppi)))

/-- Outcome of steps 6-7 of the part_009 handler, as sent in its 200
response (`ok` is always `true` there). -/
structure Step7Out where
  ok : Bool
  computeStatus : String
  poibX : ℚ
  poibY : ℚ
  windage : ℚ
  elevation : ℚ
deriving DecidableEq

/-- part_009 lines 470-509: when `computePoibFromBlobs` fails the status
becomes `FAILED_TO_DETECT_HOLES` but `poibInches` is set to `{x:0, y:0}`
and the handler continues to the click computation and the 200 response. -/
def step67 (blobs : List (ℚ × ℚ)) (selectedIdxs : List ℕ) (xC yC ppi distanceYards clickValueMoa : ℚ) :
    Step7Out :=
  let poibRes := computePoibFromBlobs blobs selectedIdxs xC yC ppi
  let st :=
    match poibRes with
    | none => (("FAILED_TO_DETECT_HOLES"), (0 : ℚ), (0 : ℚ))
    | some p => (("COMPUTED_FROM_IMAGE"), p.1, p.2)
  let ipc := inchesPerClick distanceYards clickValueMoa
  let w := if ipc = 0 then 0 else round2 (st.2.1 / ipc)
  let e := if ipc = 0 then 0 else round2 (st.2.2 / ipc)
  ⟨true, st.1, st.2.1, st.2.2, w, e⟩

end Part009

namespace Part011

/-- round2 of part_011 lines 40-44 (finite guard vacuous over ℚ). -/
def round2 (n : ℚ) : ℚ := Js.round2 n

/-- part_011 lines 133-136 `moaAtDistanceInches`. -/
def moaAtDistanceInches (distanceYards : ℚ) : ℚ := 1047 / 1000 * (distanceYards / 100)

/-- part_011 lines 215-216: the deadband zeroes an axis offset only when
`Math.abs(delta) < deadbandIn` (strict comparison). -/
def deadbandAxis (delta deadbandIn : ℚ) : ℚ := if |delta| < deadbandIn then 0 else delta

/-- part_011 lines 126-128 `dirLR`: `>= 0` is RIGHT. -/
def dirLR (v : ℚ) : String := if 0 ≤ v then ("RIGHT") else ("LEFT")

/-- part_011 lines 129-131 `dirUD`: `>= 0` is UP. -/
def dirUD (v : ℚ) : String := if 0 ≤ v then ("UP") else ("DOWN")

/-- Inputs of the part_011 POST /api/sec handler (after its input
normalisation), as far as the claims need them. -/
structure Req where
  holes : List (ℚ × ℚ)
  bull : ℚ × ℚ
  distanceYards : ℚ
  clickValueMoa : ℚ
  deadbandIn : ℚ
  minShots : ℕ
deriving DecidableEq

/-- Reduced response of the part_011 handler. -/
inductive Resp where
  | failure (code : String)
  | success (wClicks eClicks : ℚ) (wLabel eLabel : String)
deriving DecidableEq

/-- part_011 lines 147-269: `NOT_ENOUGH_SHOTS` below `minShots`;
`BAD_CLICK_VALUE` when inches-per-click is not finite-positive; else
windage clicks from the deadbanded `bull.x - poib.x` and elevation clicks
from `(poib.y - bull.y)` — the source computes `dyDb` (line 216) but the
elevation click formula on line 239 does not use it, so the deadband never
touches the elevation axis. -/
def handler (r : Req) : Resp :=
  if r.holes.length < r.minShots then .failure ("NOT_ENOUGH_SHOTS")
  else
    let poib : ℚ × ℚ :=
      ((r.holes.map Prod.fst).sum / r.holes.length, (r.holes.map Prod.snd).sum / r.holes.length)
    let dxIn := r.bull.1 - poib.1
    let dxDb := deadbandAxis dxIn r.deadbandIn
    let inchesPerClick := moaAtDistanceInches r.distanceYards * r.clickValueMoa
    if inchesPerClick ≤ 0 then .failure ("BAD_CLICK_VALUE")
    else
      let wClicks := round2 (dxDb / inchesPerClick)
      let eClicks := round2 ((poib.2 - r.bull.2) / inchesPerClick)
      .success wClicks eClicks (dirLR wClicks) (dirUD eClicks)

end Part011

namespace Part013

/-- round2 of part_013 lines 20-22 (plain). -/
def round2 (n : ℚ) : ℚ := Js.round2 n

/-- part_013 lines 63-66 `inchesPerMOA`. -/
def inchesPerMOA (distanceYards : ℚ) : ℚ := 1047 / 1000 * (distanceYards / 100)

/-- part_013 lines 68-72 `toClicks`: inches → MOA → clicks, no guards. -/
def toClicks (inches distanceYards clickValueMoa : ℚ) : ℚ :=
  inches / inchesPerMOA distanceYards / clickValueMoa

/-- part_013 lines 193-199: the windage clicks after the optional deadband,
which zeroes the click value when `Math.abs(dxIn) <= deadbandIn`
(non-strict comparison). -/
def windClicksDeadbanded (dxIn deadbandIn distanceYards clickValueMoa : ℚ) : ℚ :=
  if |dxIn| ≤ deadbandIn then 0 else toClicks dxIn distanceYards clickValueMoa

/-- Direction word of `labelFromSignedDelta` (part_013 lines 74-88): the
returned JS string begins with this word (`RIGHT 0.00 clicks` and
`UP 0.00 clicks` at zero); the numeric suffix is omitted here. -/
def labelWord (axis : String) (signedClicks : ℚ) : String :=
  if axis = "windage" then
    if 0 < signedClicks then ("RIGHT") else if signedClicks < 0 then ("LEFT") else ("RIGHT")
  else
    if 0 < signedClicks then ("UP") else if signedClicks < 0 then ("DOWN") else ("UP")

/-- part_013 lines 188-205, elevation axis: internal Up-positive space,
`dyIn = bull.y - poib.y`, deadbanded with `<=`, rounded to two decimals. -/
def elevClicksSigned (bullY poibY deadbandIn distanceYards clickValueMoa : ℚ) : ℚ :=
  let dyIn := bullY - poibY
  round2 (if |dyIn| ≤ deadbandIn then 0 else toClicks dyIn distanceYards clickValueMoa)

end Part013

/-- Concrete numeric interpretation used to instantiate the abstract JS
`Number` coercion of `BullLockedV2.parseTargetSpec` in witnesses: it reads
the handful of literal digit strings the witnesses need. -/
def numTest (s : List Char) : Option ℚ :=
  if s = ['1', '1'] then some 11
  else if s = ['8', '.', '5'] then some (17 / 2)
  else if s = ['2', '3'] then some 23
  else if s = ['0'] then some 0
  else none

/-- Helper: `Math.round(0 * 100) / 100 = 0`. -/
theorem Js.round2_zero : Js.round2 0 = 0 := by
  norm_num [Js.round2]

/-- Helper: the epsilon-padded round2 also maps 0 to 0. -/
theorem Js.round2eps_zero : Js.round2eps 0 = 0 := by
  norm_num [Js.round2eps, Js.round2, Js.epsilon]

/-- Helper: round2 of a nonnegative number is nonnegative. -/
theorem Js.round2_nonneg (x : ℚ) (hx : 0 ≤ x) : 0 ≤ Js.round2 x := by
  unfold Js.round2
  have h : (0 : ℤ) ≤ ⌊x * 100 + 1 / 2⌋ := by
    rw [Int.le_floor]
    push_cast
    linarith
  positivity

/-- Helper: a zero inch offset converts to zero clicks in clicksFromInches. -/
theorem YDownV2.clicksFromInches_zero (d cv : ℚ) : YDownV2.clicksFromInches 0 d cv = 0 := by
  unfold YDownV2.clicksFromInches
  simp

/-- Claim C5 (confirmed).  End-to-end example on the
POIB_TO_BULL_LOCKED_YDOWN_V2 variant: holes {3.90,4.85},{3.88,4.78} and
bull {4.25,5.50} at 100 yards with 0.25 MOA clicks give POIB (3.89, 4.815),
correction (0.36, 0.685) = Bull − POIB, inchesPerMOA 1.047, inchesPerClick
0.26175, raw clicks 480/349 ≈ 1.375 and 2740/1047 ≈ 2.617 (within the
2-decimal tolerance of the spec values), and the emitted signed clicks
1.38 / 2.62 with labels RIGHT / DOWN matching the correction signs in the
Y-down convention. -/
theorem claim_C5 :
    YDownV2.computePOIB [(some (39/10), some (97/20)), (some (97/25), some (239/50))]
      = some (2, 389/100, 963/200)
  ∧ (17/4 : ℚ) - 389/100 = 9/25
  ∧ (11/2 : ℚ) - 963/200 = 137/200
  ∧ YDownV2.inchesPerMOA 100 = 1047/1000
  ∧ YDownV2.inchesPerMOA 100 * (1/4) = 1047/4000
  ∧ YDownV2.clicksFromInches (9/25) 100 (1/4) = 480/349
  ∧ YDownV2.clicksFromInches (137/200) 100 (1/4) = 2740/1047
  ∧ |(480/349 : ℚ) - 1375/1000| < 5/1000
  ∧ |(2740/1047 : ℚ) - 2617/1000| < 5/10000
  ∧ YDownV2.secClicks (17/4, 11/2) (389/100, 963/200) 100 (1/4)
      = ⟨69/50, 131/50, ("RIGHT"), ("DOWN")⟩ := by
  have habs1 : |(9/25 : ℚ)| = 9/25 := abs_of_nonneg (by norm_num)
  have habs2 : |(137/200 : ℚ)| = 137/200 := abs_of_nonneg (by norm_num)
  refine ⟨?_, by norm_num, by norm_num, ?_, ?_, ?_, ?_, by rw [abs_sub_lt_iff]; constructor <;> norm_num, by rw [abs_sub_lt_iff]; constructor <;> norm_num, ?_⟩
  · norm_num [YDownV2.computePOIB, List.filterMap]
  · norm_num [YDownV2.inchesPerMOA]
  · norm_num [YDownV2.inchesPerMOA]
  · norm_num [YDownV2.clicksFromInches, YDownV2.inchesPerMOA, habs1]
  · norm_num [YDownV2.clicksFromInches, YDownV2.inchesPerMOA, habs2]
  · norm_num [YDownV2.secClicks, YDownV2.clicksFromInches, YDownV2.inchesPerMOA,
      YDownV2.labelsFromSignedYDown, YDownV2.round2, Js.round2eps, Js.round2, Js.epsilon,
      habs1, habs2]

/-- Claim C6 (confirmed).  Scale invariance: with the inch offset and the
MOA click value held fixed, doubling a positive distance halves the click
magnitude computed by `clicksFromInches`, because
`inchesPerMOA d = 1.047 * (d / 100)` is linear in the distance. -/
theorem claim_C6 (deltaIn distanceYards clickValueMoa : ℚ) (hd : 0 < distanceYards) :
    YDownV2.clicksFromInches deltaIn (2 * distanceYards) clickValueMoa
      = YDownV2.clicksFromInches deltaIn distanceYards clickValueMoa / 2
  ∧ YDownV2.inchesPerMOA distanceYards = 1047/1000 * (distanceYards / 100)
  ∧ YDownV2.inchesPerMOA (2 * distanceYards) = 2 * YDownV2.inchesPerMOA distanceYards := by
  have hlin : YDownV2.inchesPerMOA (2 * distanceYards) * clickValueMoa
      = 2 * (YDownV2.inchesPerMOA distanceYards * clickValueMoa) := by
    unfold YDownV2.inchesPerMOA; ring
  refine ⟨?_, rfl, by unfold YDownV2.inchesPerMOA; ring⟩
  unfold YDownV2.clicksFromInches
  rw [hlin]
  rcases le_or_lt (YDownV2.inchesPerMOA distanceYards * clickValueMoa) 0 with h | h
  · rw [if_pos h, if_pos (by linarith), zero_div]
  · rw [if_neg (by push_neg; linarith), if_neg (not_le.mpr h)]
    rw [div_div]
    ring_nf

/-- Witness for C6 at deltaIn = 1, distanceYards = 100, clickValueMoa = 1/4. -/
theorem claim_C6_witness :
    YDownV2.clicksFromInches 1 (2 * 100) (1/4)
      = YDownV2.clicksFromInches 1 100 (1/4) / 2 :=
  (claim_C6 1 100 (1/4) (by norm_num)).1

/-- Claim C4 counterexample.  On the POIB_TO_BULL_LOCKED_YDOWN_V2 variant,
with POIB equal to Bull (both (1,1), 100 yards, 0.25 MOA) the signed clicks
are exactly zero, but the labels produced by `labelsFromSignedYDown` are
the directional words RIGHT and DOWN (both its comparisons are `>= 0`),
not a neutral HOLD/CENTER label as the claim requires. -/
theorem claim_C4_counterexample :
    YDownV2.secClicks (1, 1) (1, 1) 100 (1/4) = ⟨0, 0, ("RIGHT"), ("DOWN")⟩
  ∧ ("RIGHT" : String) ≠ ("HOLD") ∧ ("RIGHT" : String) ≠ ("CENTER")
  ∧ ("DOWN" : String) ≠ ("HOLD") ∧ ("DOWN" : String) ≠ ("CENTER") := by
  refine ⟨?_, by decide, by decide, by decide, by decide⟩
  norm_num [YDownV2.secClicks, YDownV2.clicksFromInches, YDownV2.inchesPerMOA,
    YDownV2.labelsFromSignedYDown, YDownV2.round2, Js.round2eps, Js.round2, Js.epsilon]

/-- Claim C4 amended.  If POIB equals Bull exactly, both signed click
outputs are zero in every variant; the label functions that have a zero
case return the neutral labels (part_000 `labelSigned` → HOLD, the
REAL_ALWAYS_IMAGE_POIB_v1 `dialText` → CENTER), but the
POIB_TO_BULL_LOCKED_YDOWN_V2 `labelsFromSignedYDown` maps the zero clicks
to the directional labels RIGHT and DOWN. -/
theorem claim_C4_amended (bull : ℚ × ℚ) (distanceYards clickValueMoa deadbandIn : ℚ) :
    (YDownV2.secClicks bull bull distanceYards clickValueMoa).wSigned = 0
  ∧ (YDownV2.secClicks bull bull distanceYards clickValueMoa).eSigned = 0
  ∧ (YDownV2.secClicks bull bull distanceYards clickValueMoa).wDir = "RIGHT"
  ∧ (YDownV2.secClicks bull bull distanceYards clickValueMoa).eDir = "DOWN"
  ∧ Part000.labelSigned (Part000.deadbandAxis 0 deadbandIn) ("RIGHT") ("LEFT") = "HOLD"
  ∧ AlwaysImagePoib.dialText 0 ("LEFT") ("RIGHT") = "CENTER (0.00 clicks)" := by
  have hdb : Part000.deadbandAxis 0 deadbandIn = 0 := by
    unfold Part000.deadbandAxis; split <;> simp
  refine ⟨?_, ?_, ?_, ?_, ?_, ?_⟩
  · simp [YDownV2.secClicks, YDownV2.clicksFromInches_zero, Js.round2eps_zero, YDownV2.round2]
  · simp [YDownV2.secClicks, YDownV2.clicksFromInches_zero, Js.round2eps_zero, YDownV2.round2]
  · simp [YDownV2.secClicks, YDownV2.clicksFromInches_zero, Js.round2eps_zero, YDownV2.round2,
      YDownV2.labelsFromSignedYDown]
  · simp [YDownV2.secClicks, YDownV2.clicksFromInches_zero, Js.round2eps_zero, YDownV2.round2,
      YDownV2.labelsFromSignedYDown]
  · rw [hdb]; simp [Part000.labelSigned]
  · simp [AlwaysImagePoib.dialText]

/-- Claim C2 (code bug evidence).  On the BULL_LOCKED_V2 variant, an upload
with distanceYards = 0 (hole at pixel (10,10), 100×100 normalized image,
8.5x11 target, 0.25 MOA clicks) is not rejected: `inchesPerClick` is NaN,
JS treats it as falsy, and the handler answers 200 ok with zero-filled
clicks and CENTER labels — the zero-correction success the spec forbids.
The POIB_ANCHOR_V2 handler (part_011) does implement the required check
and rejects distanceYards = 0 with BAD_CLICK_VALUE. -/
theorem claim_C2 :
    BullLockedV2.postApiSec [⟨10, 10⟩] 100 100 (17/2) 11 0 (1/4)
      = .success ⟨0, 0, ("CENTER"), ("CENTER"), -17/5, 22/5⟩
  ∧ Part011.handler ⟨[(1, 1)], (0, 0), 0, 1/4, 0, 1⟩ = .failure ("BAD_CLICK_VALUE") := by
  constructor
  · norm_num [BullLockedV2.postApiSec, BullLockedV2.computeBullLocked,
      BullLockedV2.inchesPerMoaAtYards, BullLockedV2.round2, Js.round2]
  · norm_num [Part011.handler, Part011.moaAtDistanceInches]

/-- Claim C3 (code bug evidence).  When zero hole candidates survive:
the REAL_ALWAYS_IMAGE_POIB_v1 variant substitutes the detected target
center for the group center (server.js lines 781-783) and answers a 200
ok:true with POIB (0,0), zero clicks and CENTER dials — the silent
on-target fallback the claim forbids; the part_009 handler sets
computeStatus FAILED_TO_DETECT_HOLES but still answers 200 ok:true with
POIB (0,0) and zero clicks.  The BULL_LOCKED_V2 variant is the one that
conforms, answering the distinct 422 HOLES_NOT_FOUND failure. -/
theorem claim_C3 :
    (∀ xCenter yCenter pixelsPerInch distanceYards clickValueMoa : ℚ,
      0 < pixelsPerInch → 0 < 1047 / 1000 * (distanceYards / 100) * clickValueMoa →
      AlwaysImagePoib.postApiSec [] xCenter yCenter pixelsPerInch distanceYards clickValueMoa
        = ⟨true, 0, 0, 0, 0, ("CENTER (0.00 clicks)"), ("CENTER (0.00 clicks)")⟩)
  ∧ (∀ (blobs : List (ℚ × ℚ)) (xC yC ppi distanceYards clickValueMoa : ℚ),
      Part009.step67 blobs [] xC yC ppi distanceYards clickValueMoa
        = ⟨true, ("FAILED_TO_DETECT_HOLES"), 0, 0, 0, 0⟩)
  ∧ Part009.chooseTightCluster [] = []
  ∧ (∀ wPx hPx widthIn heightIn distanceYards clickValueMoa : ℚ,
      BullLockedV2.postApiSec [] wPx hPx widthIn heightIn distanceYards clickValueMoa
        = .failure ("HOLES_NOT_FOUND")) := by
  refine ⟨?_, ?_, ?_, ?_⟩
  · intro xC yC ppi d cv _ _
    simp [AlwaysImagePoib.postApiSec, AlwaysImagePoib.groupCenterPxOf,
      AlwaysImagePoib.dialText, AlwaysImagePoib.round2, Js.round2_zero]
  · intro blobs xC yC ppi d cv
    unfold Part009.step67 Part009.computePoibFromBlobs
    simp only [List.length_nil]
    norm_num [Js.round2_zero, Part009.round2]
  · simp [Part009.chooseTightCluster]
  · intro wPx hPx wIn hIn d cv
    simp [BullLockedV2.postApiSec]

/-- Witness for C3 at center (5,5), 10 px/inch, 100 yards, 0.25 MOA. -/
theorem claim_C3_witness :
    AlwaysImagePoib.postApiSec [] 5 5 10 100 (1/4)
      = ⟨true, 0, 0, 0, 0, ("CENTER (0.00 clicks)"), ("CENTER (0.00 clicks)")⟩ :=
  claim_C3.1 5 5 10 100 (1/4) (by norm_num) (by norm_num)

/-- Claim C1 counterexample.  On the POIB_TO_BULL_LOCKED_YDOWN_V2 variant
with distanceYards 100 and clickValueMoa 0.25: for POIB.x = 0 < Bull.x =
0.001 the signed windage clicks are 0, not strictly positive (the raw
0.0038 clicks round to 0.00); and for POIB.x = 0.001 > Bull.x = 0 the
windage label is RIGHT, not LEFT (the rounded clicks are 0 and
`labelsFromSignedYDown` sends 0 to RIGHT). -/
theorem claim_C1_counterexample :
    ((0:ℚ) < 1/1000)
  ∧ (YDownV2.secClicks (1/1000, 0) (0, 0) 100 (1/4)).wSigned = 0
  ∧ (YDownV2.secClicks (0, 0) (1/1000, 0) 100 (1/4)).wDir = "RIGHT" := by
  have habs : |(1/1000 : ℚ)| = 1/1000 := abs_of_nonneg (by norm_num)
  have habs2 : |(0 - 1/1000 : ℚ)| = 1/1000 := by rw [abs_sub_comm]; norm_num [habs]
  refine ⟨by norm_num, ?_, ?_⟩
  · norm_num [YDownV2.secClicks, YDownV2.clicksFromInches, YDownV2.inchesPerMOA,
      YDownV2.round2, Js.round2eps, Js.round2, Js.epsilon, habs]
  · norm_num [YDownV2.secClicks, YDownV2.clicksFromInches, YDownV2.inchesPerMOA,
      YDownV2.labelsFromSignedYDown, YDownV2.round2, Js.round2eps, Js.round2, Js.epsilon,
      habs, habs2]

/-- Claim C1 amended.  On the POIB_TO_BULL_LOCKED_YDOWN_V2 variant the
correction is computed as Bull − POIB and labels come only from the sign
of the signed clicks, but the signed clicks are the two-decimal rounding
of the magnitude, so the direction invariant holds only when that rounded
magnitude is nonzero: then POIB.x < Bull.x gives strictly positive clicks
labelled RIGHT, POIB.x > Bull.x strictly negative clicks labelled LEFT,
and POIB.y < Bull.y strictly positive elevation clicks labelled DOWN
(Y-down convention).  Under the up-positive convention (part_013),
POIB.y < Bull.y gives nonnegative elevation clicks whose label word is
UP.  When the magnitude rounds to zero the signed clicks are 0 and the
labels degenerate to RIGHT / DOWN (claim_C1_counterexample). -/
theorem claim_C1_amended (bullX bullY poibX poibY distanceYards clickValueMoa : ℚ) :
    (poibX < bullX →
      0 < YDownV2.round2 (YDownV2.clicksFromInches (bullX - poibX) distanceYards clickValueMoa) →
      0 < (YDownV2.secClicks (bullX, bullY) (poibX, poibY) distanceYards clickValueMoa).wSigned
      ∧ (YDownV2.secClicks (bullX, bullY) (poibX, poibY) distanceYards clickValueMoa).wDir = "RIGHT")
  ∧ (bullX < poibX →
      0 < YDownV2.round2 (YDownV2.clicksFromInches (bullX - poibX) distanceYards clickValueMoa) →
      (YDownV2.secClicks (bullX, bullY) (poibX, poibY) distanceYards clickValueMoa).wSigned < 0
      ∧ (YDownV2.secClicks (bullX, bullY) (poibX, poibY) distanceYards clickValueMoa).wDir = "LEFT")
  ∧ (poibY < bullY →
      0 < YDownV2.round2 (YDownV2.clicksFromInches (bullY - poibY) distanceYards clickValueMoa) →
      0 < (YDownV2.secClicks (bullX, bullY) (poibX, poibY) distanceYards clickValueMoa).eSigned
      ∧ (YDownV2.secClicks (bullX, bullY) (poibX, poibY) distanceYards clickValueMoa).eDir = "DOWN")
  ∧ (poibY < bullY → 0 < distanceYards → 0 < clickValueMoa →
      0 ≤ Part013.elevClicksSigned bullY poibY 0 distanceYards clickValueMoa
      ∧ Part013.labelWord ("elevation")
          (Part013.elevClicksSigned bullY poibY 0 distanceYards clickValueMoa) = "UP") := by
  refine ⟨?_, ?_, ?_, ?_⟩
  · intro hx hpos
    have hdx : (0:ℚ) ≤ bullX - poibX := by linarith
    constructor
    · simpa [YDownV2.secClicks, hdx] using hpos
    · simp [YDownV2.secClicks, YDownV2.labelsFromSignedYDown, hdx, hpos.le]
  · intro hx hpos
    have hdx : ¬ ((0:ℚ) ≤ bullX - poibX) := by linarith
    constructor
    · simp only [YDownV2.secClicks, if_neg hdx]
      simpa using hpos
    · simp only [YDownV2.secClicks, YDownV2.labelsFromSignedYDown, if_neg hdx]
      rw [if_neg (by simpa using hpos.not_le)]
  · intro hy hpos
    have hdy : (0:ℚ) ≤ bullY - poibY := by linarith
    constructor
    · simpa [YDownV2.secClicks, hdy] using hpos
    · simp [YDownV2.secClicks, YDownV2.labelsFromSignedYDown, hdy, hpos.le]
  · intro hy hd hcv
    have hdy : (0:ℚ) < bullY - poibY := by linarith
    have habs : ¬ (|bullY - poibY| ≤ 0) := by
      rw [not_le, abs_pos]
      exact ne_of_gt hdy
    have hval : Part013.elevClicksSigned bullY poibY 0 distanceYards clickValueMoa
        = Part013.round2 (Part013.toClicks (bullY - poibY) distanceYards clickValueMoa) := by
      simp only [Part013.elevClicksSigned]
      rw [if_neg habs]
    have hipm : (0:ℚ) < 1047 / 1000 * (distanceYards / 100) :=
      mul_pos (by norm_num) (div_pos hd (by norm_num))
    have htc : 0 ≤ Part013.toClicks (bullY - poibY) distanceYards clickValueMoa := by
      unfold Part013.toClicks Part013.inchesPerMOA
      exact div_nonneg (div_nonneg hdy.le hipm.le) hcv.le
    have hnn : 0 ≤ Part013.elevClicksSigned bullY poibY 0 distanceYards clickValueMoa := by
      rw [hval]
      exact Js.round2_nonneg _ htc
    refine ⟨hnn, ?_⟩
    unfold Part013.labelWord
    rw [if_neg (by decide : ¬ (("elevation" : String) = ("windage")))]
    rcases lt_or_eq_of_le hnn with h | h
    · rw [if_pos h]
    · rw [if_neg (by rw [← h]; exact lt_irrefl 0), if_neg (by rw [← h]; exact lt_irrefl 0)]

/-- Witness for C1 at Bull (1, 2), POIB (0, 0), 100 yards, 0.25 MOA:
the 3.82 signed clicks are positive and labelled RIGHT. -/
theorem claim_C1_witness :
    0 < (YDownV2.secClicks (1, 2) (0, 0) 100 (1/4)).wSigned
  ∧ (YDownV2.secClicks (1, 2) (0, 0) 100 (1/4)).wDir = "RIGHT" :=
  (claim_C1_amended 1 2 0 0 100 (1/4)).1 (by norm_num)
    (by norm_num [YDownV2.round2, YDownV2.clicksFromInches, YDownV2.inchesPerMOA,
      Js.round2eps, Js.round2, Js.epsilon, abs_of_nonneg])

/-- Claim C7 counterexample.  part_011 never applies the deadband to the
elevation axis: with one hole at (0, 0.5), bull (0,0), 100 yards, 0.25 MOA
and deadbandIn = 1, the elevation offset magnitude 0.5 is inside the
deadband, yet the handler answers 1.91 elevation clicks (the source
computes `dyDb` but line 239 converts `poib.y - bull.y` directly).  And in
part_000 the deadband comparison is `<=`, so an offset exactly equal to
deadbandIn (here 1) is zeroed rather than converted unchanged. -/
theorem claim_C7_counterexample :
    Part011.handler ⟨[(0, 1/2)], (0, 0), 100, 1/4, 1, 1⟩
      = .success 0 (191/100) ("RIGHT") ("UP")
  ∧ |(1/2 : ℚ) - 0| < 1
  ∧ ((191/100 : ℚ)) ≠ 0
  ∧ Part000.deadbandAxis 1 1 = 0
  ∧ ((1 : ℚ)) ≠ 0 := by
  have habs : |(1/2 : ℚ)| = 1/2 := abs_of_nonneg (by norm_num)
  have habs0 : |(0 : ℚ)| = 0 := abs_zero
  refine ⟨?_, by rw [sub_zero, habs]; norm_num, by norm_num, ?_, by norm_num⟩
  · norm_num [Part011.handler, Part011.deadbandAxis, Part011.moaAtDistanceInches,
      Part011.round2, Part011.dirLR, Part011.dirUD, Js.round2, habs0]
  · norm_num [Part000.deadbandAxis]

/-- Claim C7 amended.  The deadband behaves per the claim only in the
part_011 windage path: an axis offset with magnitude strictly below
deadbandIn yields exactly 0 clicks, and an offset with magnitude at least
deadbandIn is converted unchanged.  In part_000 and part_013 the
comparison is `<=`: an offset whose magnitude equals deadbandIn is also
zeroed, and only strictly larger offsets convert unchanged.  (part_011
applies no deadband at all to elevation — claim_C7_counterexample.) -/
theorem claim_C7_amended :
    (∀ delta deadbandIn : ℚ, |delta| < deadbandIn → Part011.deadbandAxis delta deadbandIn = 0)
  ∧ (∀ delta deadbandIn : ℚ, deadbandIn ≤ |delta| → Part011.deadbandAxis delta deadbandIn = delta)
  ∧ (∀ delta deadbandIn ipc : ℚ, |delta| < deadbandIn →
      Part011.round2 (Part011.deadbandAxis delta deadbandIn / ipc) = 0)
  ∧ (∀ delta deadbandIn : ℚ, |delta| ≤ deadbandIn → Part000.deadbandAxis delta deadbandIn = 0)
  ∧ (∀ delta deadbandIn : ℚ, deadbandIn < |delta| → Part000.deadbandAxis delta deadbandIn = delta)
  ∧ (∀ dxIn deadbandIn distanceYards clickValueMoa : ℚ, |dxIn| ≤ deadbandIn →
      Part013.windClicksDeadbanded dxIn deadbandIn distanceYards clickValueMoa = 0)
  ∧ (∀ dxIn deadbandIn distanceYards clickValueMoa : ℚ, deadbandIn < |dxIn| →
      Part013.windClicksDeadbanded dxIn deadbandIn distanceYards clickValueMoa
        = Part013.toClicks dxIn distanceYards clickValueMoa) := by
  refine ⟨?_, ?_, ?_, ?_, ?_, ?_, ?_⟩
  · intro delta db h
    simp [Part011.deadbandAxis, h]
  · intro delta db h
    simp [Part011.deadbandAxis, not_lt.mpr h]
  · intro delta db ipc h
    simp [Part011.deadbandAxis, h, Part011.round2, Js.round2_zero]
  · intro delta db h
    simp [Part000.deadbandAxis, h]
  · intro delta db h
    simp [Part000.deadbandAxis, not_le.mpr h]
  · intro dx db d cv h
    simp [Part013.windClicksDeadbanded, h]
  · intro dx db d cv h
    simp [Part013.windClicksDeadbanded, not_le.mpr h]

/-- Witness for C7: offset 0.5 inside deadband 1 is zeroed by part_011. -/
theorem claim_C7_witness : Part011.deadbandAxis (1/2) 1 = 0 :=
  claim_C7_amended.1 (1/2) 1 (by rw [abs_of_nonneg] <;> norm_num)

/-- Claim C9 counterexample.  The POIB_TO_BULL_LOCKED_YDOWN_V2 handler
does not reject a holes list containing a malformed entry: with holes
[(1,1), (non-numeric x, 2)], bull (0,0), 100 yards, 0.25 MOA its
`computePOIB` silently skips the bad entry and the handler answers a 200
success computed from the single remaining hole (POIB (1,1),
holesUsedCount 1, signed clicks −3.82/−3.82, labels LEFT/UP) instead of a
MalformedInput failure. -/
theorem claim_C9_counterexample :
    YDownV2.handler [(some 1, some 1), (none, some 2)] (some 0, some 0) 100 (1/4)
      = .success ⟨-191/50, -191/50, ("LEFT"), ("UP")⟩ 1 1 1 := by
  have habs : |(0 - 1 : ℚ)| = 1 := by norm_num
  norm_num [YDownV2.handler, YDownV2.computePOIB, YDownV2.secClicks,
    YDownV2.clicksFromInches, YDownV2.inchesPerMOA, YDownV2.labelsFromSignedYDown,
    YDownV2.round2, Js.round2eps, Js.round2, Js.epsilon, List.filterMap, habs]

/-- Claim C9 amended.  The part_000 handler does reject: any hole whose x
or y is missing or not a finite number makes it answer the BAD_HOLES
failure.  The POIB_TO_BULL_LOCKED_YDOWN_V2 `computePOIB`, by contrast,
skips non-numeric entries and computes the POIB from the remaining valid
holes (failing only when none remains): on [(1,1), (bad, 2)] it returns
ok with count 1 and centroid (1,1). -/
theorem claim_C9_amended :
    (∀ (holes : List (Option ℚ × Option ℚ)) (bull : Option ℚ × Option ℚ)
        (distanceYards clickValueMoa deadbandIn : ℚ),
      (∃ h ∈ holes, h.1 = none ∨ h.2 = none) →
      Part000.postApiSec holes bull distanceYards clickValueMoa deadbandIn
        = .failure ("BAD_HOLES"))
  ∧ YDownV2.computePOIB [(some 1, some 1), (none, some 2)] = some (1, 1, 1) := by
  constructor
  · intro holes bull d cv db hbad
    obtain ⟨h, hmem, hb⟩ := hbad
    have hne : holes.length ≠ 0 := by
      cases holes with
      | nil => cases hmem
      | cons a t => simp
    have hany : holes.any (fun h => h.1.isNone || h.2.isNone) = true := by
      rw [List.any_eq_true]
      refine ⟨h, hmem, ?_⟩
      rcases hb with hb | hb
      · simp [hb]
      · simp [hb]
    unfold Part000.postApiSec
    rw [if_neg hne, if_pos hany]
  · norm_num [YDownV2.computePOIB, List.filterMap]

/-- Witness for C9: a single bad hole triggers BAD_HOLES in part_000. -/
theorem claim_C9_witness :
    Part000.postApiSec [(none, some 2)] (some 0, some 0) 100 (1/4) 0
      = .failure ("BAD_HOLES") :=
  claim_C9_amended.1 [(none, some 2)] (some 0, some 0) 100 (1/4) 0
    ⟨(none, some 2), by simp, Or.inl rfl⟩

set_option maxHeartbeats 4000000 in
/-- Helper: evaluation of `chooseTightCluster` on the 5 tightly clustered
points (0,0),(2,0),(0,2),(2,2),(1,1) — it keeps only the tightest 3-point
cluster, indices [0, 4, 1]. -/
theorem Part009.chooseTightCluster_tight5 :
    Part009.chooseTightCluster [(0,0),(2,0),(0,2),(2,2),(1,1)] = [0, 4, 1] := by
  norm_num [Part009.chooseTightCluster, Part009.kNearestIdxs, JsArr.sortByKey,
    JsArr.insertByKey, Part009.centroidIdxs, Part009.rMaxSq, Part009.distSq,
    List.range, List.range.loop, List.foldl]

set_option maxHeartbeats 16000000 in
/-- Helper: evaluation of `chooseTightCluster` on the 5 tight points plus
the two distant outliers (100,100),(120,120) — again indices [0, 4, 1]. -/
theorem Part009.chooseTightCluster_pts7 :
    Part009.chooseTightCluster [(0,0),(2,0),(0,2),(2,2),(1,1),(100,100),(120,120)]
      = [0, 4, 1] := by
  norm_num [Part009.chooseTightCluster, Part009.kNearestIdxs, JsArr.sortByKey,
    JsArr.insertByKey, Part009.centroidIdxs, Part009.rMaxSq, Part009.distSq,
    List.range, List.range.loop, List.foldl]

/-- Claim C8 counterexample.  Given the 5 tightly clustered points
(0,0),(2,0),(0,2),(2,2),(1,1) and the 2 distant outliers
(100,100),(120,120), `chooseTightCluster` returns the 3 indices [0, 4, 1]
— a 3-point subset — not the 5 tight points the claim requires: the code
searches k = 3..min(7,n) even when the count is within the cap, minimises
the max radius (which always shrinks with smaller k here), and its strict
`<` comparison makes ties keep the earliest (smallest-k) candidate. -/
theorem claim_C8_counterexample :
    Part009.chooseTightCluster [(0,0),(2,0),(0,2),(2,2),(1,1),(100,100),(120,120)]
      = [0, 4, 1]
  ∧ ([0, 4, 1] : List ℕ).length ≠ 5 :=
  ⟨Part009.chooseTightCluster_pts7, by decide⟩

/-- Claim C8 amended.  The selector returns all candidates only when the
count is at most 3 (minShots; maxShots plays no such role — both are the
hard-coded 3 and 7, there are no parameters).  Otherwise it searches
k = 3..min(7, count) over every candidate center, minimising the cluster
max radius with ties resolved to the earliest (smallest-k) candidate; on
5 tight points (count below the cap) it therefore returns the tightest
3-point subset [0, 4, 1] rather than all 5, and on the 5 tight points
plus 2 distant outliers it returns the same 3 tight indices — a subset of
the tight cluster, never an outlier, but not all 5 of them. -/
theorem claim_C8_amended :
    (∀ pts : List (ℚ × ℚ), pts.length ≤ 3 →
      Part009.chooseTightCluster pts = List.range pts.length)
  ∧ Part009.chooseTightCluster [(0,0),(2,0),(0,2),(2,2),(1,1)] = [0, 4, 1]
  ∧ Part009.chooseTightCluster [(0,0),(2,0),(0,2),(2,2),(1,1),(100,100),(120,120)]
      ⊆ [0, 1, 2, 3, 4] := by
  refine ⟨?_, Part009.chooseTightCluster_tight5, ?_⟩
  · intro pts h
    unfold Part009.chooseTightCluster
    rw [if_pos h]
  · rw [Part009.chooseTightCluster_pts7]
    decide

/-- Witness for C8: with only two points the selector returns both. -/
theorem claim_C8_witness :
    Part009.chooseTightCluster [(0, 0), (5, 5)] = List.range 2 :=
  claim_C8_amended.1 [(0, 0), (5, 5)] (by norm_num)

/-- Helper: a cleaned spec that contains the separator is nonempty, hence
so is the trimmed spec it was filtered from. -/
theorem BullLockedV2.trimmedSpec_not_empty_of_contains (s : List Char)
    (h : (BullLockedV2.cleanedSpec s).contains 'x' = true) :
    (BullLockedV2.trimmedSpec s).isEmpty = false := by
  cases hh : (BullLockedV2.trimmedSpec s).isEmpty
  · rfl
  · exfalso
    have hnil : BullLockedV2.trimmedSpec s = [] := by
      cases hts : BullLockedV2.trimmedSpec s
      · rfl
      · rw [hts] at hh
        simp at hh
    have hcnil : BullLockedV2.cleanedSpec s = [] := by
      unfold BullLockedV2.cleanedSpec
      rw [hnil]
      rfl
    rw [hcnil] at h
    simp at h

/-- Claim C10 (confirmed).  `parseTargetSpec` over an abstract JS `Number`
coercion `num`: the bare string that `num` reads as 11 parses to the
8.5 × 11 letter size; any other single finite positive number n parses to
the n × n square (so a single non-11 number is never a height with an
implied width — every single-number success apart from 11 is square); a
WxH form succeeds exactly when both split parts are finite and strictly
positive; every successful parse has strictly positive dimensions; and
all remaining shapes (empty/whitespace spec, NaN, non-positive numbers,
malformed splits) yield the failure result `none`. -/
theorem claim_C10 (num : List Char → Option ℚ) :
    (num ['1', '1'] = some 11 →
      BullLockedV2.parseTargetSpec num ['1', '1'] = some (17/2, 11))
  ∧ (∀ (s : List Char) (n : ℚ),
      (BullLockedV2.trimmedSpec s).isEmpty = false →
      (BullLockedV2.cleanedSpec s).contains 'x' = false →
      num (BullLockedV2.cleanedSpec s) = some n → 0 < n → n ≠ 11 →
      BullLockedV2.parseTargetSpec num s = some (n, n))
  ∧ (∀ (s : List Char) (w h : ℚ),
      (BullLockedV2.cleanedSpec s).contains 'x' = true →
      (BullLockedV2.splitOnChar 'x' (BullLockedV2.cleanedSpec s)).map num
        = [some w, some h] →
      0 < w → 0 < h →
      BullLockedV2.parseTargetSpec num s = some (w, h))
  ∧ (∀ (s : List Char) (w h : ℚ),
      BullLockedV2.parseTargetSpec num s = some (w, h) → 0 < w ∧ 0 < h)
  ∧ (∀ (s : List Char) (n w h : ℚ),
      (BullLockedV2.cleanedSpec s).contains 'x' = false →
      num (BullLockedV2.cleanedSpec s) = some n → n ≠ 11 →
      BullLockedV2.parseTargetSpec num s = some (w, h) → w = h)
  ∧ (∀ s : List Char,
      (BullLockedV2.cleanedSpec s).contains 'x' = false →
      num (BullLockedV2.cleanedSpec s) = none →
      BullLockedV2.parseTargetSpec num s = none)
  ∧ (∀ (s : List Char) (n : ℚ),
      (BullLockedV2.cleanedSpec s).contains 'x' = false →
      num (BullLockedV2.cleanedSpec s) = some n → n ≤ 0 →
      BullLockedV2.parseTargetSpec num s = none)
  ∧ (∀ (s : List Char) (w h : ℚ),
      (BullLockedV2.cleanedSpec s).contains 'x' = true →
      (BullLockedV2.splitOnChar 'x' (BullLockedV2.cleanedSpec s)).map num
        = [some w, some h] →
      (w ≤ 0 ∨ h ≤ 0) →
      BullLockedV2.parseTargetSpec num s = none)
  ∧ (∀ s : List Char,
      (BullLockedV2.cleanedSpec s).contains 'x' = true →
      (∀ w h : ℚ, (BullLockedV2.splitOnChar 'x' (BullLockedV2.cleanedSpec s)).map num
        ≠ [some w, some h]) →
      BullLockedV2.parseTargetSpec num s = none)
  ∧ (∀ s : List Char, (BullLockedV2.trimmedSpec s).isEmpty = true →
      BullLockedV2.parseTargetSpec num s = none) := by
  have hxF := BullLockedV2.trimmedSpec_not_empty_of_contains
  refine ⟨?_, ?_, ?_, ?_, ?_, ?_, ?_, ?_, ?_, ?_⟩
  · intro hnum
    have he : (BullLockedV2.trimmedSpec ['1', '1']).isEmpty = false := by decide
    have hc : BullLockedV2.cleanedSpec ['1', '1'] = ['1', '1'] := by decide
    have hx : (BullLockedV2.cleanedSpec ['1', '1']).contains 'x' = false := by decide
    unfold BullLockedV2.parseTargetSpec
    rw [he, hx, hc, hnum]
    norm_num
  · intro s n he hx hnum hpos hne
    unfold BullLockedV2.parseTargetSpec
    rw [he, hx, hnum]
    simp [not_le.mpr hpos, hne]
  · intro s w h hx hmap hw hh
    unfold BullLockedV2.parseTargetSpec
    rw [hxF s hx, hx, hmap]
    simp [not_le.mpr hw, not_le.mpr hh]
  · intro s w h hp
    unfold BullLockedV2.parseTargetSpec at hp
    split at hp
    · exact absurd hp (by simp)
    · split at hp
      · split at hp
        · rename_i w2 h2 heq
          split at hp
          · exact absurd hp (by simp)
          · rename_i hcond
            push_neg at hcond
            injection hp with hp2
            rw [Prod.mk.injEq] at hp2
            obtain ⟨rfl, rfl⟩ := hp2
            exact hcond
        · exact absurd hp (by simp)
      · split at hp
        · exact absurd hp (by simp)
        · rename_i n hnum
          split at hp
          · exact absurd hp (by simp)
          · rename_i hn
            split at hp
            · injection hp with hp2
              rw [Prod.mk.injEq] at hp2
              obtain ⟨hw, hh⟩ := hp2
              rw [← hw, ← hh]
              norm_num
            · injection hp with hp2
              rw [Prod.mk.injEq] at hp2
              obtain ⟨hw, hh⟩ := hp2
              push_neg at hn
              rw [← hw, ← hh]
              exact ⟨hn, hn⟩
  · intro s n w h hx hnum hne hp
    unfold BullLockedV2.parseTargetSpec at hp
    split at hp
    · exact absurd hp (by simp)
    · split at hp
      · rename_i hcx
        rw [hx] at hcx
        exact absurd hcx (by simp)
      · rw [hnum] at hp
        split at hp
        · exact absurd hp (by simp)
        · rename_i n2 heq
          split at hp
          · exact absurd hp (by simp)
          · split at hp
            · rename_i h11
              injection heq with heq2
              exact absurd (heq2.trans h11) hne
            · injection hp with hp2
              rw [Prod.mk.injEq] at hp2
              obtain ⟨hw, hh⟩ := hp2
              rw [← hw, ← hh]
  · intro s hx hnum
    unfold BullLockedV2.parseTargetSpec
    rw [hx, hnum]
    by_cases he : (BullLockedV2.trimmedSpec s).isEmpty = true
    · rw [if_pos he]
    · rw [if_neg he]
      simp
  · intro s n hx hnum hn
    unfold BullLockedV2.parseTargetSpec
    rw [hx, hnum]
    by_cases he : (BullLockedV2.trimmedSpec s).isEmpty = true
    · rw [if_pos he]
    · rw [if_neg he]
      simp [hn]
  · intro s w h hx hmap hwh
    unfold BullLockedV2.parseTargetSpec
    rw [hxF s hx, hx, hmap]
    simp [hwh]
  · intro s hx hne
    unfold BullLockedV2.parseTargetSpec
    rw [hxF s hx, hx]
    rw [if_neg (by simp : ¬ ((false : Bool) = true)), if_pos rfl]
    generalize hl : (BullLockedV2.splitOnChar 'x' (BullLockedV2.cleanedSpec s)).map num = l
    rw [hl] at hne
    match l with
    | [] => rfl
    | none :: _ => rfl
    | [some a] => rfl
    | some a :: none :: _ => rfl
    | [some a, some b] => exact absurd rfl (hne a b)
    | some a :: some b :: c :: t => rfl
  · intro s he
    unfold BullLockedV2.parseTargetSpec
    rw [he]
    simp

/-- Witness for C10 with the concrete interpretation `numTest`: "11" is
8.5 × 11, "23" is the 23 × 23 square, and "8.5x11" parses as width 8.5 and
height 11. -/
theorem claim_C10_witness :
    BullLockedV2.parseTargetSpec numTest ['1', '1'] = some (17/2, 11)
  ∧ BullLockedV2.parseTargetSpec numTest ['2', '3'] = some (23, 23)
  ∧ BullLockedV2.parseTargetSpec numTest ['8', '.', '5', 'x', '1', '1']
      = some (17/2, 11) := by
  have h11 : numTest ['1', '1'] = some 11 := by
    unfold numTest
    rw [if_pos rfl]
  have h23 : numTest ['2', '3'] = some 23 := by
    unfold numTest
    rw [if_neg (by decide), if_neg (by decide), if_pos rfl]
  have h85 : numTest ['8', '.', '5'] = some (17/2) := by
    unfold numTest
    rw [if_neg (by decide), if_pos rfl]
  have hc23 : BullLockedV2.cleanedSpec ['2', '3'] = ['2', '3'] := by decide
  have hc85 : BullLockedV2.cleanedSpec ['8', '.', '5', 'x', '1', '1']
      = ['8', '.', '5', 'x', '1', '1'] := by decide
  have hsplit : BullLockedV2.splitOnChar 'x' ['8', '.', '5', 'x', '1', '1']
      = [['8', '.', '5'], ['1', '1']] := by decide
  have hmap : (BullLockedV2.splitOnChar 'x'
        (BullLockedV2.cleanedSpec ['8', '.', '5', 'x', '1', '1'])).map numTest
      = [some (17/2), some 11] := by
    rw [hc85, hsplit, List.map_cons, List.map_cons, List.map_nil, h85, h11]
  refine ⟨(claim_C10 numTest).1 h11, ?_, ?_⟩
  · exact (claim_C10 numTest).2.1 ['2', '3'] 23 (by decide) (by decide)
      (by rw [hc23, h23]) (by norm_num) (by norm_num)
  · exact (claim_C10 numTest).2.2.1 ['8', '.', '5', 'x', '1', '1'] (17/2) 11
      (by decide) hmap (by norm_num) (by norm_num)

/-- Witness for C4 at Bull = POIB = (1,1), 100 yards, 0.25 MOA, deadband 0. -/
theorem claim_C4_witness :
    (YDownV2.secClicks ((1:ℚ), (1:ℚ)) ((1:ℚ), (1:ℚ)) 100 (1/4)).wSigned = 0
  ∧ (YDownV2.secClicks ((1:ℚ), (1:ℚ)) ((1:ℚ), (1:ℚ)) 100 (1/4)).eSigned = 0 :=
  ⟨(claim_C4_amended (1, 1) 100 (1/4) 0).1, (claim_C4_amended (1, 1) 100 (1/4) 0).2.1⟩
